import Mathlib

/-
Shallow embedding of the Ansible "logstash" callback plugin
(src/logstash.py) and proofs of the specification claims.

Python dictionaries are modelled as insertion-ordered association lists,
Python exceptions as `Except` errors, and the callback object's mutable
attributes (`self.data`, `self.connected`, the socket) as an explicit
state record.  The random UUID (`uuid.uuid4()`), the login name
(`os.getlogin()`), the resolved configuration (`get_option`) and the
outcome of the TCP connection attempt are inputs of the model, since they
come from the environment or from host-provided collaborators.
-/

namespace Logstash

/-- A Python value, restricted to the shapes flowing through the plugin:
strings, integers, dictionaries and `None`. -/
inductive PyVal where
  | none : PyVal
  | str : String → PyVal
  | int : Int → PyVal
  | dict : List (String × PyVal) → PyVal

/-- A Python dictionary: insertion-ordered list of key/value pairs
(keys unique by construction of the operations below). -/
abbrev PyDict := List (String × PyVal)

/-- Python exceptions raised by the modelled code. -/
inductive PyErr where
  | keyError : String → PyErr
  | typeError : PyErr
  | attributeError : PyErr
deriving DecidableEq

/-- Dictionary lookup, `d[k]` / `d.get(k)` as an `Option`. -/
def dget : PyDict → String → Option PyVal
  | [], _ => Option.none
  | (k2, v) :: t, k => if k2 = k then some v else dget t k

/-- Python `d.get(k, default)`. -/
def dgetD (d : PyDict) (k : String) (dflt : PyVal) : PyVal :=
  (dget d k).getD dflt

/-- Python `d[k] = v`: replace in place when the key exists, otherwise
append (insertion order preserved). -/
def dset : PyDict → String → PyVal → PyDict
  | [], k, v => [(k, v)]
  | (k2, v2) :: t, k, v =>
    if k2 = k then (k, v) :: t else (k2, v2) :: dset t k v

/-- Python `d.pop(k, None)` restricted to its effect on the dictionary. -/
def dremove : PyDict → String → PyDict
  | [], _ => []
  | (k2, v2) :: t, k => if k2 = k then t else (k2, v2) :: dremove t k

/-- Python truthiness of a value (`if failed_modules:`). -/
def truthy : PyVal → Bool
  | PyVal.none => false
  | PyVal.str s => !s.isEmpty
  | PyVal.int n => n != 0
  | PyVal.dict d => !d.isEmpty

/-- Expect a string, as Python `str.join` does (`TypeError` otherwise). -/
def asStr : PyVal → Except PyErr String
  | PyVal.str s => Except.ok s
  | _ => Except.error PyErr.typeError

/-- Expect a dictionary, as attribute access `log.get` does
(`AttributeError` otherwise). -/
def asDict : PyVal → Except PyErr PyDict
  | PyVal.dict d => Except.ok d
  | _ => Except.error PyErr.attributeError

/-- The string content of a value known to be a string (used only to
state theorems; agrees with `asStr` whenever the latter succeeds). -/
def strOfD : PyVal → String
  | PyVal.str s => s
  | _ => ""

/-- The single-quote character, `chr 39`. -/
def sq : Char := Char.ofNat 39

/-- The single-quote character as a string. -/
def sqs : String := String.singleton sq

/-- Escape one character inside a Python string repr with quote `q`. -/
def pyReprChar (q : Char) (c : Char) : String :=
  if c = '\\' then "\\\\"
  else if c = q then "\\" ++ String.singleton q
  else if c = '\n' then "\\n"
  else if c = '\r' then "\\r"
  else if c = '\t' then "\\t"
  else String.singleton c

/-- Character membership in a string (Python `c in s`). -/
def strHasChar (s : String) (c : Char) : Bool :=
  s.data.contains c

/-- Python `repr` of a string: single quotes, switching to double quotes
when the text contains a single quote but no double quote. -/
def pyReprStr (s : String) : String :=
  if strHasChar s sq && !strHasChar s '"' then
    "\"" ++ String.join (s.data.map (pyReprChar '"')) ++ "\""
  else
    sqs ++ String.join (s.data.map (pyReprChar sq)) ++ sqs

mutual

/-- Python `repr` of a value. -/
def pyRepr : PyVal → String
  | PyVal.none => "None"
  | PyVal.int n => toString n
  | PyVal.str s => pyReprStr s
  | PyVal.dict d => "\x7b" ++ pyReprEntries d ++ "\x7d"
termination_by structural v => v

/-- Python `repr` of the entries of a dictionary. -/
def pyReprEntries : List (String × PyVal) → String
  | [] => ""
  | [(k, v)] => pyReprStr k ++ ": " ++ pyRepr v
  | (k, v) :: t => pyReprStr k ++ ": " ++ pyRepr v ++ ", " ++ pyReprEntries t
termination_by structural l => l

end

/-- Escape one character for a JSON string literal. -/
def jsonEscapeChar (c : Char) : String :=
  if c = '"' then "\\\""
  else if c = '\\' then "\\\\"
  else if c = '\n' then "\\n"
  else if c = '\r' then "\\r"
  else if c = '\t' then "\\t"
  else String.singleton c

/-- Escape a string for a JSON string literal. -/
def jsonEscape (s : String) : String :=
  String.join (s.data.map jsonEscapeChar)

mutual

/-- `json.dumps` on the modelled values (`AnsibleJSONEncoder` only adds
host-internal types not represented here). -/
def jsonDumps : PyVal → String
  | PyVal.none => "null"
  | PyVal.str s => "\"" ++ jsonEscape s ++ "\""
  | PyVal.int n => toString n
  | PyVal.dict d => "\x7b" ++ jsonDumpsEntries d ++ "\x7d"
termination_by structural v => v

/-- `json.dumps` on the entries of a dictionary. -/
def jsonDumpsEntries : List (String × PyVal) → String
  | [] => ""
  | [(k, v)] => "\"" ++ jsonEscape k ++ "\": " ++ jsonDumps v
  | (k, v) :: t => "\"" ++ jsonEscape k ++ "\": " ++ jsonDumps v ++ ", " ++ jsonDumpsEntries t
termination_by structural l => l

end

/-- `msg.replace(chr 10, chr 32)`: the pattern is the single character
`\n`, so the replacement is the character-wise map. -/
def replaceNl (s : String) : String :=
  String.mk (s.data.map (fun c => if c = '\n' then ' ' else c))

/-- Python whitespace for `str.strip`. -/
def isPyWS (c : Char) : Bool :=
  c = ' ' || c = '\t' || c = '\n' || c = '\r' || c = Char.ofNat 11 || c = Char.ofNat 12

/-- Python `str.strip()`: drop leading and trailing whitespace. -/
def pyStrip (s : String) : String :=
  String.mk (((s.data.dropWhile isPyWS).reverse.dropWhile isPyWS).reverse)

/-- `os.path.basename` on POSIX paths: the suffix after the last
path separator. -/
def basename (p : String) : String :=
  String.mk ((p.data.reverse.takeWhile (fun c => c ≠ '/')).reverse)

/-- The resolved plugin configuration as seen through `get_option`:
`Option.none` means the key is missing and `get_option` raises `KeyError`
(for `port`, it also covers a failing `int()` conversion, which the code
does not catch either). -/
structure Config where
  server : Option String
  port : Option Int

/-- The mutable state of the `CallbackModule` instance together with the
observable world: `data` is `self.data`; `connected` is the `connected`
attribute, `Option.none` when it was never assigned (so that reading it
raises `AttributeError`); `writes` is the byte stream handed to the
socket, in order of the `sendall`/`send` calls; `emitted` lists the
records passed to a successful socket write, for stating record-level
properties; `errLog` collects `display.error` output and `console`
collects `display.banner`/`display.display` output. -/
structure CBState where
  data : PyDict
  connected : Option Bool
  writes : List String
  emitted : List PyDict
  errLog : List String
  console : List String

/-- `set_options`: build `self.data` from the fresh UUID and the login
name, read the configuration (a missing key raises `KeyError`, caught and
logged, leaving `connected` unset), then attempt the TCP connection
(`connectOk` is the environment's answer; refusal is caught, logged, and
sets `connected := false`). -/
def set_options (uuid user : String) (cfg : Config) (connectOk : Bool) : CBState :=
  let data : PyDict := [("session", PyVal.str uuid), ("user", PyVal.str user)]
  match cfg.server, cfg.port with
  | some server, some port =>
    if connectOk then
      { data := data, connected := some true, writes := [], emitted := [],
        errLog := [],
        console := ["Logging to " ++ server ++ ":" ++ toString port] }
    else
      { data := data, connected := some false, writes := [], emitted := [],
        errLog := ["Cannot connect to " ++ server ++ ":" ++ toString port ++ " for logging"],
        console := [] }
  | _, _ =>
    { data := data, connected := Option.none, writes := [], emitted := [],
      errLog := ["KeyError"], console := [] }

/-- The `failed_modules` routing of `collect_output`:
`failed_modules = result._result.get(..., None)`; when truthy, `log =
failed_modules[...]` (the `setup` lookup, `KeyError` when absent,
`TypeError` when the value is not subscriptable as a mapping); otherwise
`log = result._result`. -/
def selectedLog (res : PyDict) : Except PyErr PyVal :=
  match dget res "failed_modules" with
  | Option.none => Except.ok (PyVal.dict res)
  | some fm =>
    if truthy fm then
      match fm with
      | PyVal.dict fmd =>
        match dget fmd "setup" with
        | some v => Except.ok v
        | Option.none => Except.error (PyErr.keyError "setup")
      | _ => Except.error PyErr.typeError
    else Except.ok (PyVal.dict res)

/-- The field-extraction tail of `collect_output` on the selected payload
`logd`: set `rc` (default 0), fetch the five text fields (default empty
string; a non-string raises `TypeError` at the `join`, in field order),
build `log` as the stripped newline-join of `repr(msg)` and the four
outputs, then pop the five raw fields from the record. -/
def fillFrom (base : PyDict) (logd : PyDict) : Except PyErr PyDict :=
  let data := dset base "rc" (dgetD logd "rc" (PyVal.int 0))
  match asStr (dgetD logd "stdout" (PyVal.str "")),
        asStr (dgetD logd "stderr" (PyVal.str "")),
        asStr (dgetD logd "module_stdout" (PyVal.str "")),
        asStr (dgetD logd "module_stderr" (PyVal.str "")) with
  | Except.ok stdout, Except.ok stderr, Except.ok module_stdout, Except.ok module_stderr =>
    let msg := dgetD logd "msg" (PyVal.str "")
    let data := dset data "log" (PyVal.str (pyStrip (String.intercalate "\n"
      [pyRepr msg, stdout, stderr, module_stdout, module_stderr])))
    let data := dremove data "stdout"
    let data := dremove data "stderr"
    let data := dremove data "module_stdout"
    let data := dremove data "module_stderr"
    let data := dremove data "msg"
    Except.ok data
  | Except.error e, _, _, _ => Except.error e
  | _, Except.error e, _, _ => Except.error e
  | _, _, Except.error e, _ => Except.error e
  | _, _, _, Except.error e => Except.error e

/-- `collect_output`: copy `self.data`, add the task and host names, route
through `failed_modules`, and extract the fields.  The host collaborators
`_clean_results` (field redaction) and `_handle_warnings` (warning
consumption) mutate the result in place before extraction; their contracts
are external and they are modelled as the identity on the payload. -/
def collect_output (selfData : PyDict) (task host : String) (res : PyDict) :
    Except PyErr PyDict :=
  let base := dset (dset selfData "task" (PyVal.str task)) "host" (PyVal.str host)
  match selectedLog res with
  | Except.error e => Except.error e
  | Except.ok lg =>
    match asDict lg with
    | Except.error e => Except.error e
    | Except.ok logd => fillFrom base logd

/-- `send_output`: `if self.connected:` raises `AttributeError` when the
attribute was never assigned; when `False` the call is a no-op; when
`True` the record is serialized, internal newlines are replaced by
spaces, and the bytes plus a terminating newline are written (the socket
writes themselves are assumed to succeed: a mid-run socket failure is
unhandled in the code and outside the claims). -/
def send_output (st : CBState) (msg : PyDict) : Except PyErr CBState :=
  match st.connected with
  | Option.none => Except.error PyErr.attributeError
  | some false => Except.ok st
  | some true =>
    let s := replaceNl (jsonDumps (PyVal.dict msg))
    Except.ok { st with writes := st.writes ++ [s, "\n"],
                        emitted := st.emitted ++ [msg] }

/-- Turn the result of a trailing `send_output` into the post-state of a
handler: an exception propagates to the host, leaving the state reached
before the call (`st`, which already carries any earlier mutation). -/
def exceptToStep (st : CBState) : Except PyErr CBState → CBState × Option PyErr
  | Except.ok st2 => (st2, Option.none)
  | Except.error e => (st, some e)

/-- `self.data['session']` rendered for `"Session: %s"` (always a string
in every reachable state). -/
def sessionStr (st : CBState) : String :=
  match dget st.data "session" with
  | some (PyVal.str s) => s
  | _ => ""

/-- `v2_playbook_on_start`: mutates `self.data` in place with the
playbook basename, then copies, tags and sends. -/
def v2_playbook_on_start (st : CBState) (file_name : String) : CBState × Option PyErr :=
  let st := { st with data := dset st.data "playbook" (PyVal.str (basename file_name)) }
  let d := dset st.data "task" (PyVal.str "Playbook start")
  exceptToStep st (send_output st d)

/-- `v2_playbook_on_stats`: copy, tag, attach the host→summary mapping
(built by the host's statistics summarizer, here an abstract input), send,
then display the session line. -/
def v2_playbook_on_stats (st : CBState) (summary : PyVal) : CBState × Option PyErr :=
  let d := dset (dset st.data "task" (PyVal.str "Playbook end")) "stdout" summary
  match send_output st d with
  | Except.ok st2 =>
    ({ st2 with console := st2.console ++ ["Session: " ++ sessionStr st2] }, Option.none)
  | Except.error e => (st, some e)

/-- `v2_runner_on_failed`. -/
def v2_runner_on_failed (st : CBState) (task host : String) (res : PyDict) :
    CBState × Option PyErr :=
  match collect_output st.data task host res with
  | Except.error e => (st, some e)
  | Except.ok d => exceptToStep st (send_output st (dset d "status" (PyVal.str "failed")))

/-- `v2_runner_on_ok`. -/
def v2_runner_on_ok (st : CBState) (task host : String) (res : PyDict) :
    CBState × Option PyErr :=
  match collect_output st.data task host res with
  | Except.error e => (st, some e)
  | Except.ok d => exceptToStep st (send_output st (dset d "status" (PyVal.str "success")))

/-- `v2_runner_on_unreachable`: like the others but forces `rc` to -1
after tagging. -/
def v2_runner_on_unreachable (st : CBState) (task host : String) (res : PyDict) :
    CBState × Option PyErr :=
  match collect_output st.data task host res with
  | Except.error e => (st, some e)
  | Except.ok d =>
    exceptToStep st (send_output st
      (dset (dset d "status" (PyVal.str "unreachable")) "rc" (PyVal.int (-1))))

/-- One lifecycle event delivered by the host, with the host-provided
arguments each handler reads. -/
inductive Event where
  | playbookStart (file_name : String)
  | runnerOk (task host : String) (res : PyDict)
  | runnerFailed (task host : String) (res : PyDict)
  | runnerUnreachable (task host : String) (res : PyDict)
  | playbookStats (summary : PyVal)

/-- Dispatch one event to its handler.  The second component is the
exception propagating out of the handler, if any (the host catches it and
continues the run). -/
def step (st : CBState) (e : Event) : CBState × Option PyErr :=
  match e with
  | Event.playbookStart f => v2_playbook_on_start st f
  | Event.runnerOk task host res => v2_runner_on_ok st task host res
  | Event.runnerFailed task host res => v2_runner_on_failed st task host res
  | Event.runnerUnreachable task host res => v2_runner_on_unreachable st task host res
  | Event.playbookStats summary => v2_playbook_on_stats st summary

/-- Deliver a sequence of events (the host catches handler exceptions and
keeps driving the run). -/
def run (st : CBState) : List Event → CBState
  | [] => st
  | e :: t => run (step st e).1 t

/-! ### Dictionary lemmas -/

theorem dget_dset_self (d : PyDict) (k : String) (v : PyVal) :
    dget (dset d k v) k = some v := by
  induction d with
  | nil => simp [dget, dset]
  | cons p t ih =>
    obtain ⟨k2, v2⟩ := p
    by_cases h : k2 = k
    · simp [dget, dset, h]
    · simp [dget, dset, h, ih]

theorem dget_dset_ne (d : PyDict) (k k2 : String) (v : PyVal) (h : k2 ≠ k) :
    dget (dset d k v) k2 = dget d k2 := by
  induction d with
  | nil => simp [dget, dset, Ne.symm h]
  | cons p t ih =>
    obtain ⟨k3, v3⟩ := p
    by_cases h3 : k3 = k
    · subst h3
      simp [dget, dset, Ne.symm h]
    · simp [dget, dset, h3, ih]

theorem dget_dremove_ne (d : PyDict) (k k2 : String) (h : k2 ≠ k) :
    dget (dremove d k) k2 = dget d k2 := by
  induction d with
  | nil => simp [dremove]
  | cons p t ih =>
    obtain ⟨k3, v3⟩ := p
    by_cases h3 : k3 = k
    · subst h3
      simp [dget, dremove, Ne.symm h]
    · simp [dget, dremove, h3, ih]

theorem dget_ne_nil (d : PyDict) (k : String) (v : PyVal) (h : dget d k = some v) :
    d ≠ [] := by
  intro hnil
  subst hnil
  simp [dget] at h

/-! ### Extractor lemmas -/

theorem asStr_ok_strOfD (v : PyVal) (s : String) (h : asStr v = Except.ok s) :
    strOfD v = s := by
  cases v <;> simp [asStr] at h
  simp [strOfD, h]

theorem fillFrom_preserve (base logd d : PyDict) (k : String)
    (h : fillFrom base logd = Except.ok d)
    (h1 : k ≠ "rc") (h2 : k ≠ "log") (h3 : k ≠ "stdout") (h4 : k ≠ "stderr")
    (h5 : k ≠ "module_stdout") (h6 : k ≠ "module_stderr") (h7 : k ≠ "msg") :
    dget d k = dget base k := by
  unfold fillFrom at h
  split at h
  · simp only [Except.ok.injEq] at h
    subst h
    rw [dget_dremove_ne _ _ _ h7, dget_dremove_ne _ _ _ h6, dget_dremove_ne _ _ _ h5,
        dget_dremove_ne _ _ _ h4, dget_dremove_ne _ _ _ h3, dget_dset_ne _ _ _ _ h2,
        dget_dset_ne _ _ _ _ h1]
  all_goals simp at h

theorem fillFrom_rc (base logd d : PyDict) (h : fillFrom base logd = Except.ok d) :
    dget d "rc" = some (dgetD logd "rc" (PyVal.int 0)) := by
  unfold fillFrom at h
  split at h
  · simp only [Except.ok.injEq] at h
    subst h
    rw [dget_dremove_ne _ _ _ (by decide), dget_dremove_ne _ _ _ (by decide),
        dget_dremove_ne _ _ _ (by decide), dget_dremove_ne _ _ _ (by decide),
        dget_dremove_ne _ _ _ (by decide), dget_dset_ne _ _ _ _ (by decide),
        dget_dset_self]
  all_goals simp at h

theorem fillFrom_log (base logd d : PyDict) (h : fillFrom base logd = Except.ok d) :
    dget d "log" = some (PyVal.str (pyStrip (String.intercalate "\n"
      [pyRepr (dgetD logd "msg" (PyVal.str "")),
       strOfD (dgetD logd "stdout" (PyVal.str "")),
       strOfD (dgetD logd "stderr" (PyVal.str "")),
       strOfD (dgetD logd "module_stdout" (PyVal.str "")),
       strOfD (dgetD logd "module_stderr" (PyVal.str ""))]))) := by
  unfold fillFrom at h
  split at h
  case _ stdout stderr module_stdout module_stderr hso hse hmo hme =>
    simp only [Except.ok.injEq] at h
    subst h
    rw [dget_dremove_ne _ _ _ (by decide), dget_dremove_ne _ _ _ (by decide),
        dget_dremove_ne _ _ _ (by decide), dget_dremove_ne _ _ _ (by decide),
        dget_dremove_ne _ _ _ (by decide), dget_dset_self,
        asStr_ok_strOfD _ _ hso, asStr_ok_strOfD _ _ hse,
        asStr_ok_strOfD _ _ hmo, asStr_ok_strOfD _ _ hme]
  all_goals simp at h

theorem collect_output_eq (selfData : PyDict) (task host : String) (res logd : PyDict)
    (h : selectedLog res = Except.ok (PyVal.dict logd)) :
    collect_output selfData task host res =
      fillFrom (dset (dset selfData "task" (PyVal.str task)) "host" (PyVal.str host)) logd := by
  unfold collect_output
  rw [h]
  rfl

theorem collect_output_ok_selected (selfData : PyDict) (task host : String)
    (res d : PyDict) (h : collect_output selfData task host res = Except.ok d) :
    ∃ logd, selectedLog res = Except.ok (PyVal.dict logd) ∧
      fillFrom (dset (dset selfData "task" (PyVal.str task)) "host" (PyVal.str host)) logd =
        Except.ok d := by
  unfold collect_output at h
  split at h
  · simp at h
  case _ lg hsel =>
    cases lg with
    | dict logd => exact ⟨logd, hsel, h⟩
    | none => simp [asDict] at h
    | str s => simp [asDict] at h
    | int n => simp [asDict] at h

theorem collect_output_preserve (selfData : PyDict) (task host : String)
    (res d : PyDict) (k : String)
    (h : collect_output selfData task host res = Except.ok d)
    (h1 : k ≠ "rc") (h2 : k ≠ "log") (h3 : k ≠ "stdout") (h4 : k ≠ "stderr")
    (h5 : k ≠ "module_stdout") (h6 : k ≠ "module_stderr") (h7 : k ≠ "msg")
    (h8 : k ≠ "task") (h9 : k ≠ "host") :
    dget d k = dget selfData k := by
  obtain ⟨logd, hsel, hfill⟩ := collect_output_ok_selected selfData task host res d h
  rw [fillFrom_preserve _ _ _ _ hfill h1 h2 h3 h4 h5 h6 h7,
      dget_dset_ne _ _ _ _ h9, dget_dset_ne _ _ _ _ h8]

/-! ### Emitter lemmas -/

theorem send_output_unset (st : CBState) (m : PyDict) (h : st.connected = Option.none) :
    send_output st m = Except.error PyErr.attributeError := by
  unfold send_output
  rw [h]

theorem send_output_inactive (st : CBState) (m : PyDict) (h : st.connected = some false) :
    send_output st m = Except.ok st := by
  unfold send_output
  rw [h]

theorem send_output_active (st : CBState) (m : PyDict) (h : st.connected = some true) :
    send_output st m = Except.ok { st with
      writes := st.writes ++ [replaceNl (jsonDumps (PyVal.dict m)), "\n"],
      emitted := st.emitted ++ [m] } := by
  unfold send_output
  rw [h]

/-- A handler tail `exceptToStep stPre (send_output stPre m)` keeps
`self.data` and, on the emission side, only ever appends the record `m`:
any per-record property holding of `m` and of all previously emitted
records holds of all records emitted afterwards. -/
theorem emit_inv (stPre : CBState) (m : PyDict) (P : PyDict → Prop)
    (hm : P m) (hall : ∀ d ∈ stPre.emitted, P d) :
    (∀ d ∈ (exceptToStep stPre (send_output stPre m)).1.emitted, P d) ∧
      (exceptToStep stPre (send_output stPre m)).1.data = stPre.data := by
  cases hc : stPre.connected with
  | none =>
    rw [send_output_unset _ _ hc]
    exact ⟨hall, rfl⟩
  | some b =>
    cases b with
    | false =>
      rw [send_output_inactive _ _ hc]
      exact ⟨hall, rfl⟩
    | true =>
      rw [send_output_active _ _ hc]
      refine ⟨?_, rfl⟩
      intro d hd
      rcases List.mem_append.1 hd with h | h
      · exact hall d h
      · rw [List.mem_singleton] at h
        subst h
        exact hm

/-! ### Step lemmas for a permanently inactive connection -/

theorem step_inactive (st : CBState) (e : Event) (h : st.connected = some false) :
    (step st e).1.connected = some false ∧ (step st e).1.writes = st.writes ∧
      (step st e).1.emitted = st.emitted := by
  cases e with
  | playbookStart f =>
    simp [step, v2_playbook_on_start, exceptToStep, send_output, h]
  | runnerOk task host res =>
    cases hco : collect_output st.data task host res <;>
      simp [step, v2_runner_on_ok, hco, exceptToStep, send_output, h]
  | runnerFailed task host res =>
    cases hco : collect_output st.data task host res <;>
      simp [step, v2_runner_on_failed, hco, exceptToStep, send_output, h]
  | runnerUnreachable task host res =>
    cases hco : collect_output st.data task host res <;>
      simp [step, v2_runner_on_unreachable, hco, exceptToStep, send_output, h]
  | playbookStats summary =>
    simp [step, v2_playbook_on_stats, send_output, h]

theorem run_inactive (events : List Event) (st : CBState) (h : st.connected = some false) :
    (run st events).connected = some false ∧ (run st events).writes = st.writes ∧
      (run st events).emitted = st.emitted := by
  induction events generalizing st with
  | nil => exact ⟨h, rfl, rfl⟩
  | cons e t ih =>
    obtain ⟨hc, hw, hm⟩ := step_inactive st e h
    obtain ⟨ihc, ihw, ihm⟩ := ih (step st e).1 hc
    exact ⟨ihc, by rw [run]; rw [ihw, hw], by rw [run]; rw [ihm, hm]⟩

/-! ### Step lemmas for a never-assigned connection attribute -/

theorem step_unset (st : CBState) (e : Event) (h : st.connected = Option.none) :
    (step st e).1.connected = Option.none ∧ (step st e).1.writes = st.writes ∧
      (step st e).1.emitted = st.emitted := by
  cases e with
  | playbookStart f =>
    simp [step, v2_playbook_on_start, exceptToStep, send_output, h]
  | runnerOk task host res =>
    cases hco : collect_output st.data task host res <;>
      simp [step, v2_runner_on_ok, hco, exceptToStep, send_output, h]
  | runnerFailed task host res =>
    cases hco : collect_output st.data task host res <;>
      simp [step, v2_runner_on_failed, hco, exceptToStep, send_output, h]
  | runnerUnreachable task host res =>
    cases hco : collect_output st.data task host res <;>
      simp [step, v2_runner_on_unreachable, hco, exceptToStep, send_output, h]
  | playbookStats summary =>
    simp [step, v2_playbook_on_stats, send_output, h]

theorem run_unset (events : List Event) (st : CBState) (h : st.connected = Option.none) :
    (run st events).connected = Option.none ∧ (run st events).writes = st.writes ∧
      (run st events).emitted = st.emitted := by
  induction events generalizing st with
  | nil => exact ⟨h, rfl, rfl⟩
  | cons e t ih =>
    obtain ⟨hc, hw, hm⟩ := step_unset st e h
    obtain ⟨ihc, ihw, ihm⟩ := ih (step st e).1 hc
    exact ⟨ihc, by rw [run]; rw [ihw, hw], by rw [run]; rw [ihm, hm]⟩

/-! ### Session invariance -/

/-- The per-state session invariant: `self.data['session']` holds the
given string and so does every record emitted so far. -/
def SessionInv (u : String) (st : CBState) : Prop :=
  dget st.data "session" = some (PyVal.str u) ∧
    ∀ d ∈ st.emitted, dget d "session" = some (PyVal.str u)

theorem step_session (st : CBState) (e : Event) (u : String) (h : SessionInv u st) :
    SessionInv u (step st e).1 := by
  obtain ⟨h1, h2⟩ := h
  cases e with
  | playbookStart f =>
    have hd : dget (dset st.data "playbook" (PyVal.str (basename f))) "session" =
        some (PyVal.str u) := by
      rw [dget_dset_ne _ _ _ _ (by decide)]
      exact h1
    have hr : dget (dset (dset st.data "playbook" (PyVal.str (basename f))) "task"
        (PyVal.str "Playbook start")) "session" = some (PyVal.str u) := by
      rw [dget_dset_ne _ _ _ _ (by decide)]
      exact hd
    simp only [step, v2_playbook_on_start]
    obtain ⟨hemit, hdata⟩ := emit_inv
      { st with data := dset st.data "playbook" (PyVal.str (basename f)) } _
      (fun d => dget d "session" = some (PyVal.str u)) hr h2
    exact ⟨by rw [hdata]; exact hd, hemit⟩
  | runnerOk task host res =>
    simp only [step, v2_runner_on_ok]
    cases hco : collect_output st.data task host res with
    | error e => exact ⟨h1, h2⟩
    | ok d =>
      have hr : dget (dset d "status" (PyVal.str "success")) "session" =
          some (PyVal.str u) := by
        rw [dget_dset_ne _ _ _ _ (by decide),
            collect_output_preserve _ _ _ _ _ _ hco (by decide) (by decide) (by decide)
              (by decide) (by decide) (by decide) (by decide) (by decide) (by decide)]
        exact h1
      obtain ⟨hemit, hdata⟩ := emit_inv st _
        (fun d => dget d "session" = some (PyVal.str u)) hr h2
      exact ⟨by rw [hdata]; exact h1, hemit⟩
  | runnerFailed task host res =>
    simp only [step, v2_runner_on_failed]
    cases hco : collect_output st.data task host res with
    | error e => exact ⟨h1, h2⟩
    | ok d =>
      have hr : dget (dset d "status" (PyVal.str "failed")) "session" =
          some (PyVal.str u) := by
        rw [dget_dset_ne _ _ _ _ (by decide),
            collect_output_preserve _ _ _ _ _ _ hco (by decide) (by decide) (by decide)
              (by decide) (by decide) (by decide) (by decide) (by decide) (by decide)]
        exact h1
      obtain ⟨hemit, hdata⟩ := emit_inv st _
        (fun d => dget d "session" = some (PyVal.str u)) hr h2
      exact ⟨by rw [hdata]; exact h1, hemit⟩
  | runnerUnreachable task host res =>
    simp only [step, v2_runner_on_unreachable]
    cases hco : collect_output st.data task host res with
    | error e => exact ⟨h1, h2⟩
    | ok d =>
      have hr : dget (dset (dset d "status" (PyVal.str "unreachable")) "rc"
          (PyVal.int (-1))) "session" = some (PyVal.str u) := by
        rw [dget_dset_ne _ _ _ _ (by decide), dget_dset_ne _ _ _ _ (by decide),
            collect_output_preserve _ _ _ _ _ _ hco (by decide) (by decide) (by decide)
              (by decide) (by decide) (by decide) (by decide) (by decide) (by decide)]
        exact h1
      obtain ⟨hemit, hdata⟩ := emit_inv st _
        (fun d => dget d "session" = some (PyVal.str u)) hr h2
      exact ⟨by rw [hdata]; exact h1, hemit⟩
  | playbookStats summary =>
    have hr : dget (dset (dset st.data "task" (PyVal.str "Playbook end")) "stdout"
        summary) "session" = some (PyVal.str u) := by
      rw [dget_dset_ne _ _ _ _ (by decide), dget_dset_ne _ _ _ _ (by decide)]
      exact h1
    simp only [step, v2_playbook_on_stats]
    cases hc : st.connected with
    | none =>
      rw [send_output_unset _ _ hc]
      exact ⟨h1, h2⟩
    | some b =>
      cases b with
      | false =>
        rw [send_output_inactive _ _ hc]
        exact ⟨h1, h2⟩
      | true =>
        rw [send_output_active _ _ hc]
        refine ⟨h1, ?_⟩
        intro d hd
        simp only at hd
        rcases List.mem_append.1 hd with hmem | hmem
        · exact h2 d hmem
        · rw [List.mem_singleton] at hmem
          subst hmem
          exact hr

theorem run_session (events : List Event) (st : CBState) (u : String)
    (h : SessionInv u st) : SessionInv u (run st events) := by
  induction events generalizing st with
  | nil => exact h
  | cons e t ih => exact ih (step st e).1 (step_session st e u h)

/-! ### Claims -/

/-- C1: if the TCP connection attempt made in `set_options` fails
(connection refused), then after any sequence of lifecycle events every
call to `send_output` with any record returns normally (no exception),
leaves the state unchanged, and nothing is ever written to the socket. -/
theorem C1_connection_refused_noop (uuid user server : String) (port : Int)
    (events : List Event) (msg : PyDict) :
    send_output (run (set_options uuid user ⟨some server, some port⟩ false) events) msg =
      Except.ok (run (set_options uuid user ⟨some server, some port⟩ false) events) ∧
    (run (set_options uuid user ⟨some server, some port⟩ false) events).writes = [] := by
  have h0 : (set_options uuid user ⟨some server, some port⟩ false).connected = some false := rfl
  obtain ⟨hc, hw, _⟩ := run_inactive events _ h0
  exact ⟨send_output_inactive _ _ hc, by rw [hw]; rfl⟩


/-- C2: while connected, `send_output` writes exactly the serialized
record with every internal newline replaced by a space, followed by a
single terminating newline; the body contains no raw newline character,
so one record occupies exactly one line. -/
theorem C2_one_record_per_line (st : CBState) (msg : PyDict)
    (h : st.connected = some true) :
    send_output st msg = Except.ok { st with
      writes := st.writes ++ [replaceNl (jsonDumps (PyVal.dict msg)), "\n"],
      emitted := st.emitted ++ [msg] } ∧
    ∀ c ∈ (replaceNl (jsonDumps (PyVal.dict msg))).data, c ≠ '\n' := by
  refine ⟨send_output_active st msg h, ?_⟩
  intro c hc
  have hd : (replaceNl (jsonDumps (PyVal.dict msg))).data =
      (jsonDumps (PyVal.dict msg)).data.map (fun a => if a = '\n' then ' ' else a) := rfl
  rw [hd] at hc
  rcases List.mem_map.1 hc with ⟨a, _, ha⟩
  by_cases h2 : a = '\n'
  · rw [h2] at ha
    simp only [if_pos rfl] at ha
    rw [← ha]
    decide
  · rw [if_neg h2] at ha
    rw [← ha]
    exact h2

/-- Witness for C2 at a concrete connected state and record. -/
theorem C2_one_record_per_line_witness :
    (set_options "sid" "usr" ⟨some "srv", some 1⟩ true).connected = some true ∧
    (send_output (set_options "sid" "usr" ⟨some "srv", some 1⟩ true) [] =
      Except.ok { set_options "sid" "usr" ⟨some "srv", some 1⟩ true with
        writes := [replaceNl (jsonDumps (PyVal.dict [])), "\n"], emitted := [[]] } ∧
    ∀ c ∈ (replaceNl (jsonDumps (PyVal.dict []))).data, c ≠ '\n') :=
  ⟨rfl, C2_one_record_per_line (set_options "sid" "usr" ⟨some "srv", some 1⟩ true) [] rfl⟩

/-- C3: within one adapter lifetime (one `set_options`, then any sequence
of lifecycle events), every emitted record carries the session UUID
generated in `set_options` as its `session` value. -/
theorem C3_session_constant (uuid user : String) (cfg : Config) (connectOk : Bool)
    (events : List Event) (d : PyDict)
    (hd : d ∈ (run (set_options uuid user cfg connectOk) events).emitted) :
    dget d "session" = some (PyVal.str uuid) := by
  have h0 : SessionInv uuid (set_options uuid user cfg connectOk) := by
    obtain ⟨s, p⟩ := cfg
    cases s <;> cases p <;> cases connectOk <;>
      exact ⟨rfl, by intro d hd; simp [set_options] at hd⟩
  exact (run_session events _ uuid h0).2 d hd

/-- Witness for C3: a concrete run whose single emitted record carries
the generated session identifier. -/
theorem C3_session_constant_witness :
    ([("session", PyVal.str "sid"), ("user", PyVal.str "usr"),
        ("playbook", PyVal.str "site.yml"), ("task", PyVal.str "Playbook start")] ∈
      (run (set_options "sid" "usr" ⟨some "srv", some 1⟩ true)
        [Event.playbookStart "site.yml"]).emitted) ∧
    dget [("session", PyVal.str "sid"), ("user", PyVal.str "usr"),
        ("playbook", PyVal.str "site.yml"), ("task", PyVal.str "Playbook start")] "session" =
      some (PyVal.str "sid") :=
  ⟨List.mem_singleton.mpr rfl,
    C3_session_constant "sid" "usr" ⟨some "srv", some 1⟩ true [Event.playbookStart "site.yml"]
      _ (List.mem_singleton.mpr rfl)⟩

/-- C4: whenever `v2_runner_on_unreachable` emits a record (extraction
succeeded and the adapter is connected), that record's `rc` field equals
-1, regardless of any `rc` value in the underlying result payload. -/
theorem C4_unreachable_rc (st : CBState) (task host : String) (res d0 : PyDict)
    (hok : collect_output st.data task host res = Except.ok d0)
    (hc : st.connected = some true) :
    (v2_runner_on_unreachable st task host res).1.emitted = st.emitted ++
      [dset (dset d0 "status" (PyVal.str "unreachable")) "rc" (PyVal.int (-1))] ∧
    dget (dset (dset d0 "status" (PyVal.str "unreachable")) "rc" (PyVal.int (-1))) "rc" =
      some (PyVal.int (-1)) := by
  constructor
  · simp only [v2_runner_on_unreachable, hok]
    rw [send_output_active _ _ hc]
    rfl
  · exact dget_dset_self _ _ _

/-- Witness for C4 at a concrete connected state and a payload reporting
`rc = 7`: the emitted record still carries `rc = -1`. -/
theorem C4_unreachable_rc_witness :
    collect_output (set_options "sid" "usr" ⟨some "srv", some 1⟩ true).data "t" "h"
        [("rc", PyVal.int 7)] =
      Except.ok [("session", PyVal.str "sid"), ("user", PyVal.str "usr"),
        ("task", PyVal.str "t"), ("host", PyVal.str "h"), ("rc", PyVal.int 7),
        ("log", PyVal.str (sqs ++ sqs))] ∧
    (set_options "sid" "usr" ⟨some "srv", some 1⟩ true).connected = some true ∧
    dget (dset (dset [("session", PyVal.str "sid"), ("user", PyVal.str "usr"),
        ("task", PyVal.str "t"), ("host", PyVal.str "h"), ("rc", PyVal.int 7),
        ("log", PyVal.str (sqs ++ sqs))] "status" (PyVal.str "unreachable")) "rc"
      (PyVal.int (-1))) "rc" = some (PyVal.int (-1)) :=
  ⟨rfl, rfl,
    (C4_unreachable_rc (set_options "sid" "usr" ⟨some "srv", some 1⟩ true) "t" "h"
      [("rc", PyVal.int 7)] _ rfl rfl).2⟩

/-- C5: the record produced by `collect_output` has `rc = 0` when the
selected payload (nested or top-level) has no `rc` key, and the payload's
`rc` value when the key is present. -/
theorem C5_rc_default (selfData : PyDict) (task host : String) (res d logd : PyDict)
    (hok : collect_output selfData task host res = Except.ok d)
    (hsel : selectedLog res = Except.ok (PyVal.dict logd)) :
    (dget logd "rc" = Option.none → dget d "rc" = some (PyVal.int 0)) ∧
    ∀ v, dget logd "rc" = some v → dget d "rc" = some v := by
  rw [collect_output_eq selfData task host res logd hsel] at hok
  have hrc := fillFrom_rc _ _ _ hok
  constructor
  · intro hnone
    rw [hrc]
    simp [dgetD, hnone]
  · intro v hv
    rw [hrc]
    simp [dgetD, hv]

/-- Witness for C5: a payload without `rc` yields `rc = 0`. -/
theorem C5_rc_default_witness :
    collect_output [("session", PyVal.str "sid")] "t" "h" [] =
      Except.ok [("session", PyVal.str "sid"), ("task", PyVal.str "t"),
        ("host", PyVal.str "h"), ("rc", PyVal.int 0), ("log", PyVal.str (sqs ++ sqs))] ∧
    selectedLog [] = Except.ok (PyVal.dict []) ∧
    dget ([] : PyDict) "rc" = Option.none ∧
    dget [("session", PyVal.str "sid"), ("task", PyVal.str "t"), ("host", PyVal.str "h"),
        ("rc", PyVal.int 0), ("log", PyVal.str (sqs ++ sqs))] "rc" = some (PyVal.int 0) :=
  ⟨rfl, rfl, rfl,
    (C5_rc_default [("session", PyVal.str "sid")] "t" "h" [] _ [] rfl rfl).1 rfl⟩

/-- C6: when the result payload has a `failed_modules` entry holding a
`setup` sub-payload, `collect_output` extracts the log fields from that
nested payload (the whole field-extraction tail runs on it instead of on
the top-level payload); when `failed_modules` is absent, it runs on the
top-level payload. -/
theorem C6_failed_modules_routing (selfData : PyDict) (task host : String) (res : PyDict) :
    (∀ fmd sv, dget res "failed_modules" = some (PyVal.dict fmd) →
      dget fmd "setup" = some (PyVal.dict sv) →
      collect_output selfData task host res =
        fillFrom (dset (dset selfData "task" (PyVal.str task)) "host" (PyVal.str host)) sv) ∧
    (dget res "failed_modules" = Option.none →
      collect_output selfData task host res =
        fillFrom (dset (dset selfData "task" (PyVal.str task)) "host" (PyVal.str host)) res) := by
  constructor
  · intro fmd sv hfm hsetup
    have hne : fmd ≠ [] := dget_ne_nil _ _ _ hsetup
    have hsel : selectedLog res = Except.ok (PyVal.dict sv) := by
      unfold selectedLog
      rw [hfm]
      simp [truthy, List.isEmpty_iff, hne, hsetup]
    exact collect_output_eq _ _ _ _ _ hsel
  · intro hfm
    have hsel : selectedLog res = Except.ok (PyVal.dict res) := by
      unfold selectedLog
      rw [hfm]
    exact collect_output_eq _ _ _ _ _ hsel

/-- Witness for C6: with a `failed_modules.setup` payload reporting
`rc = 3`, extraction runs on the nested payload (and the produced record
indeed carries `rc = 3` although the top level has no `rc`). -/
theorem C6_failed_modules_routing_witness :
    dget [("failed_modules", PyVal.dict [("setup", PyVal.dict [("rc", PyVal.int 3)])])]
        "failed_modules" = some (PyVal.dict [("setup", PyVal.dict [("rc", PyVal.int 3)])]) ∧
    dget [("setup", PyVal.dict [("rc", PyVal.int 3)])] "setup" =
      some (PyVal.dict [("rc", PyVal.int 3)]) ∧
    collect_output [("session", PyVal.str "sid")] "t" "h"
        [("failed_modules", PyVal.dict [("setup", PyVal.dict [("rc", PyVal.int 3)])])] =
      fillFrom (dset (dset [("session", PyVal.str "sid")] "task" (PyVal.str "t")) "host"
        (PyVal.str "h")) [("rc", PyVal.int 3)] :=
  ⟨rfl, rfl,
    (C6_failed_modules_routing [("session", PyVal.str "sid")] "t" "h"
      [("failed_modules", PyVal.dict [("setup", PyVal.dict [("rc", PyVal.int 3)])])]).1
      _ _ rfl rfl⟩

/-- C7: the `log` field of every record produced by `collect_output` is
the whitespace-stripped, newline-joined concatenation of the repr of
`msg`, `stdout`, `stderr`, `module_stdout` and `module_stderr` of the
selected payload, in that order, each text field defaulting to the empty
string; in particular the result `rc = 2, stdout = out, stderr = err`
with no `msg` yields the log text `[repr of empty string]\nout\nerr`. -/
theorem C7_log_join (selfData : PyDict) (task host : String) (res d logd : PyDict)
    (hok : collect_output selfData task host res = Except.ok d)
    (hsel : selectedLog res = Except.ok (PyVal.dict logd)) :
    dget d "log" = some (PyVal.str (pyStrip (String.intercalate "\n"
      [pyRepr (dgetD logd "msg" (PyVal.str "")),
       strOfD (dgetD logd "stdout" (PyVal.str "")),
       strOfD (dgetD logd "stderr" (PyVal.str "")),
       strOfD (dgetD logd "module_stdout" (PyVal.str "")),
       strOfD (dgetD logd "module_stderr" (PyVal.str ""))]))) ∧
    Except.map (fun d2 => dget d2 "log")
        (collect_output [("session", PyVal.str "sid"), ("user", PyVal.str "usr")]
          "install package" "web1"
          [("rc", PyVal.int 2), ("stdout", PyVal.str "out"), ("stderr", PyVal.str "err")]) =
      Except.ok (some (PyVal.str (sqs ++ sqs ++ "\nout\nerr"))) := by
  constructor
  · rw [collect_output_eq selfData task host res logd hsel] at hok
    exact fillFrom_log _ _ _ hok
  · rfl

/-- Witness for C7 at the spec's example input. -/
theorem C7_log_join_witness :
    collect_output [("session", PyVal.str "sid"), ("user", PyVal.str "usr")]
        "install package" "web1"
        [("rc", PyVal.int 2), ("stdout", PyVal.str "out"), ("stderr", PyVal.str "err")] =
      Except.ok [("session", PyVal.str "sid"), ("user", PyVal.str "usr"),
        ("task", PyVal.str "install package"), ("host", PyVal.str "web1"),
        ("rc", PyVal.int 2), ("log", PyVal.str (sqs ++ sqs ++ "\nout\nerr"))] ∧
    dget [("session", PyVal.str "sid"), ("user", PyVal.str "usr"),
        ("task", PyVal.str "install package"), ("host", PyVal.str "web1"),
        ("rc", PyVal.int 2), ("log", PyVal.str (sqs ++ sqs ++ "\nout\nerr"))] "log" =
      some (PyVal.str (sqs ++ sqs ++ "\nout\nerr")) :=
  ⟨rfl,
    (C7_log_join [("session", PyVal.str "sid"), ("user", PyVal.str "usr")]
      "install package" "web1"
      [("rc", PyVal.int 2), ("stdout", PyVal.str "out"), ("stderr", PyVal.str "err")]
      _ _ rfl rfl).1⟩

/-- C8 counterexample: with the `server` key missing, `set_options` does
leave the connection state unset, but the adapter is not "effectively
inactive": the very next lifecycle event raises `AttributeError` out of
`send_output` (the truth test of the never-assigned `connected`
attribute), rather than performing no further action. -/
theorem C8_counterexample :
    (set_options "sid" "usr" ⟨Option.none, some 5000⟩ true).connected = Option.none ∧
    send_output (set_options "sid" "usr" ⟨Option.none, some 5000⟩ true) [] =
      Except.error PyErr.attributeError ∧
    (v2_runner_on_ok (set_options "sid" "usr" ⟨Option.none, some 5000⟩ true) "t" "h" []).2 =
      some PyErr.attributeError :=
  ⟨rfl, rfl, rfl⟩

/-- C8 (amended): when a configuration key (`server` or `port`) is
missing during `set_options`, the error is logged and the connection
state is left unset; thereafter no record is ever emitted and nothing is
ever written to the socket, but each subsequent `send_output` call raises
`AttributeError` when testing the unset attribute instead of returning
silently. -/
theorem C8_missing_key (uuid user : String) (cfg : Config) (connectOk : Bool)
    (events : List Event)
    (h : cfg.server = Option.none ∨ cfg.port = Option.none) :
    (set_options uuid user cfg connectOk).errLog = ["KeyError"] ∧
    (run (set_options uuid user cfg connectOk) events).connected = Option.none ∧
    (run (set_options uuid user cfg connectOk) events).writes = [] ∧
    (run (set_options uuid user cfg connectOk) events).emitted = [] ∧
    ∀ msg, send_output (run (set_options uuid user cfg connectOk) events) msg =
      Except.error PyErr.attributeError := by
  obtain ⟨s, p⟩ := cfg
  have h0 : set_options uuid user ⟨s, p⟩ connectOk =
      { data := [("session", PyVal.str uuid), ("user", PyVal.str user)],
        connected := Option.none, writes := [], emitted := [],
        errLog := ["KeyError"], console := [] } := by
    rcases h with h | h
    · simp only at h
      subst h
      cases p <;> rfl
    · simp only at h
      subst h
      cases s <;> rfl
  have hc : (set_options uuid user ⟨s, p⟩ connectOk).connected = Option.none := by
    rw [h0]
  have hel : (set_options uuid user ⟨s, p⟩ connectOk).errLog = ["KeyError"] := by
    rw [h0]
  obtain ⟨hrc, hrw, hre⟩ := run_unset events _ hc
  refine ⟨hel, hrc, ?_, ?_, fun msg => send_output_unset _ _ hrc⟩
  · rw [hrw, h0]
  · rw [hre, h0]

/-- Witness for C8 (amended) at a concrete missing-server configuration
and a nonempty event sequence. -/
theorem C8_missing_key_witness :
    ((⟨Option.none, some 5000⟩ : Config).server = Option.none ∨
      (⟨Option.none, some 5000⟩ : Config).port = Option.none) ∧
    ((set_options "sid" "usr" ⟨Option.none, some 5000⟩ true).errLog = ["KeyError"] ∧
    (run (set_options "sid" "usr" ⟨Option.none, some 5000⟩ true)
        [Event.runnerOk "t" "h" []]).connected = Option.none ∧
    (run (set_options "sid" "usr" ⟨Option.none, some 5000⟩ true)
        [Event.runnerOk "t" "h" []]).writes = [] ∧
    (run (set_options "sid" "usr" ⟨Option.none, some 5000⟩ true)
        [Event.runnerOk "t" "h" []]).emitted = [] ∧
    ∀ msg, send_output (run (set_options "sid" "usr" ⟨Option.none, some 5000⟩ true)
        [Event.runnerOk "t" "h" []]) msg = Except.error PyErr.attributeError) :=
  ⟨Or.inl rfl,
    C8_missing_key "sid" "usr" ⟨Option.none, some 5000⟩ true [Event.runnerOk "t" "h" []]
      (Or.inl rfl)⟩

/-- C9 counterexample: `v2_playbook_on_start` mutates the session context
`self.data` in place: before the call it has no `playbook` field, after
the call it does. -/
theorem C9_counterexample :
    dget (set_options "sid" "usr" ⟨some "srv", some 1⟩ true).data "playbook" =
      Option.none ∧
    dget ((v2_playbook_on_start (set_options "sid" "usr" ⟨some "srv", some 1⟩ true)
        "dir/site.yml").1).data "playbook" = some (PyVal.str "site.yml") :=
  ⟨rfl, rfl⟩

/-- C9 (amended): the `session` and `user` entries of the session context
are never changed — the per-task handlers and the stats handler do not
touch `self.data` at all (they only copy and extend the copy) — but
`v2_playbook_on_start` mutates `self.data` in place, changing exactly the
`playbook` key. -/
theorem C9_data_mutation (st : CBState) :
    (∀ task host res, (v2_runner_on_ok st task host res).1.data = st.data) ∧
    (∀ task host res, (v2_runner_on_failed st task host res).1.data = st.data) ∧
    (∀ task host res, (v2_runner_on_unreachable st task host res).1.data = st.data) ∧
    (∀ summary, (v2_playbook_on_stats st summary).1.data = st.data) ∧
    (∀ f k, k ≠ "playbook" →
      dget ((v2_playbook_on_start st f).1).data k = dget st.data k) := by
  refine ⟨?_, ?_, ?_, ?_, ?_⟩
  · intro task host res
    simp only [v2_runner_on_ok]
    cases hco : collect_output st.data task host res with
    | error e => rfl
    | ok d => exact (emit_inv st _ (fun _ => True) trivial (fun _ _ => trivial)).2
  · intro task host res
    simp only [v2_runner_on_failed]
    cases hco : collect_output st.data task host res with
    | error e => rfl
    | ok d => exact (emit_inv st _ (fun _ => True) trivial (fun _ _ => trivial)).2
  · intro task host res
    simp only [v2_runner_on_unreachable]
    cases hco : collect_output st.data task host res with
    | error e => rfl
    | ok d => exact (emit_inv st _ (fun _ => True) trivial (fun _ _ => trivial)).2
  · intro summary
    simp only [v2_playbook_on_stats]
    cases hc : st.connected with
    | none => rw [send_output_unset _ _ hc]
    | some b =>
      cases b with
      | false => rw [send_output_inactive _ _ hc]
      | true => rw [send_output_active _ _ hc]
  · intro f k hk
    simp only [v2_playbook_on_start]
    rw [(emit_inv _ _ (fun _ => True) trivial (fun _ _ => trivial)).2]
    exact dget_dset_ne _ _ _ _ hk

/-- Witness for C9 (amended): the stats handler leaves `self.data`
unchanged at a concrete state, and `v2_playbook_on_start` leaves the
`session` key unchanged there. -/
theorem C9_data_mutation_witness :
    (v2_playbook_on_stats (set_options "sid" "usr" ⟨some "srv", some 1⟩ true)
        (PyVal.dict [])).1.data =
      (set_options "sid" "usr" ⟨some "srv", some 1⟩ true).data ∧
    (("session" : String) ≠ "playbook" ∧
      dget ((v2_playbook_on_start (set_options "sid" "usr" ⟨some "srv", some 1⟩ true)
          "site.yml").1).data "session" =
        dget (set_options "sid" "usr" ⟨some "srv", some 1⟩ true).data "session") :=
  ⟨(C9_data_mutation (set_options "sid" "usr" ⟨some "srv", some 1⟩ true)).2.2.2.1
      (PyVal.dict []),
    by decide,
    (C9_data_mutation (set_options "sid" "usr" ⟨some "srv", some 1⟩ true)).2.2.2.2
      "site.yml" "session" (by decide)⟩

/-- C10: a truthy `failed_modules` mapping without a `setup` key makes
`collect_output` raise `KeyError` (the nested lookup is unguarded), while
a present-but-falsy `failed_modules` value routes extraction to the
top-level payload without error. -/
theorem C10_failed_modules_keyerror (selfData : PyDict) (task host : String)
    (res fmd : PyDict) :
    (dget res "failed_modules" = some (PyVal.dict fmd) → fmd ≠ [] →
      dget fmd "setup" = Option.none →
      collect_output selfData task host res = Except.error (PyErr.keyError "setup")) ∧
    (∀ fm, dget res "failed_modules" = some fm → truthy fm = false →
      selectedLog res = Except.ok (PyVal.dict res)) := by
  constructor
  · intro hfm hne hsetup
    have hsel : selectedLog res = Except.error (PyErr.keyError "setup") := by
      unfold selectedLog
      rw [hfm]
      simp [truthy, List.isEmpty_iff, hne, hsetup]
    unfold collect_output
    rw [hsel]
  · intro fm hfm htr
    unfold selectedLog
    rw [hfm]
    simp [htr]

/-- Witness for C10: a truthy `failed_modules` without `setup` raises
`KeyError`, and an empty (falsy) `failed_modules` mapping selects the
top-level payload. -/
theorem C10_failed_modules_keyerror_witness :
    (dget [("failed_modules", PyVal.dict [("other", PyVal.int 1)])] "failed_modules" =
        some (PyVal.dict [("other", PyVal.int 1)]) ∧
      ([("other", PyVal.int 1)] : PyDict) ≠ [] ∧
      dget [("other", PyVal.int 1)] "setup" = Option.none ∧
      collect_output [("session", PyVal.str "sid")] "t" "h"
          [("failed_modules", PyVal.dict [("other", PyVal.int 1)])] =
        Except.error (PyErr.keyError "setup")) ∧
    (truthy (PyVal.dict []) = false ∧
      selectedLog [("failed_modules", PyVal.dict [])] =
        Except.ok (PyVal.dict [("failed_modules", PyVal.dict [])])) :=
  ⟨⟨rfl, by simp, rfl,
      (C10_failed_modules_keyerror [("session", PyVal.str "sid")] "t" "h"
        [("failed_modules", PyVal.dict [("other", PyVal.int 1)])]
        [("other", PyVal.int 1)]).1 rfl (by simp) rfl⟩,
    rfl,
    (C10_failed_modules_keyerror [("session", PyVal.str "sid")] "t" "h"
      [("failed_modules", PyVal.dict [])] []).2 (PyVal.dict []) rfl rfl⟩

end Logstash
